import Mathlib

/-!
Shallow embedding of the dinodia-mobile device synchronization layer:
the command dispatcher (src/utils/haCommands.ts), the device resolution
pipeline (src/api/dinodia.ts, src/api/ha.ts), the key-value persistence
adapter (src/utils/storage.ts) and the device synchronization cache
(src/store/deviceStore.ts), together with theorems checking the
natural-language specification against this embedding.
-/

namespace Dinodia

/-- Attribute values of a Home Assistant entity (the open key-value bag). -/
inductive AttrVal
  | num (q : ℚ)
  | str (s : String)
  | boolv (b : Bool)
  | nullv
deriving DecidableEq

/-- One entity state as returned by GET /api/states/{entityId} (src/api/ha.ts HAState). -/
structure HAState where
  entity_id : String
  state : String
  friendly_name : Option String
  attributes : List (String × AttrVal)
deriving DecidableEq

/-- Lookup in an attribute bag (first binding wins, as in a JS object). -/
def lookupAttr (attrs : List (String × AttrVal)) (k : String) : Option AttrVal :=
  (attrs.find? (fun p => p.1 == k)).map (fun p => p.2)

/-- clamp from src/utils/haCommands.ts: Math.min(max, Math.max(min, value)). -/
def clamp (value lo hi : ℚ) : ℚ :=
  min hi (max lo value)

/-- `entityId.split('.')[0]` — the substring before the first dot
(the whole string when no dot occurs). -/
def entityDomain (entityId : String) : String :=
  String.mk (entityId.toList.takeWhile (fun c => c ≠ '.'))

/-- JS String.prototype.trim: drop leading and trailing whitespace. -/
def jsTrim (s : String) : String :=
  String.mk ((s.toList.dropWhile Char.isWhitespace).reverse.dropWhile
    Char.isWhitespace).reverse

/-- A service invocation POSTed to /api/services/{domain}/{service};
optional fields model the JSON payload keys actually sent. -/
structure ServiceCall where
  domain : String
  service : String
  entityId : String
  brightness_pct : Option ℚ := none
  volume_level : Option ℚ := none
  temperature : Option ℚ := none
deriving DecidableEq

/-- Observable gateway effects of one handleDeviceCommand run. -/
inductive HaEffect
  | stateRead (entityId : String)
  | service (call : ServiceCall)
deriving DecidableEq

/-- NUMERIC_COMMANDS from src/utils/haCommands.ts. -/
def NUMERIC_COMMANDS : List String :=
  ["light/set_brightness", "media/volume_set"]

/-- The switch statement of handleDeviceCommand, run after the state read;
returns the single service call issued, or the validation error thrown. -/
def dispatchCommand (entityId command : String) (value : Option ℚ)
    (st : HAState) : Except String ServiceCall :=
  let currentState := st.state
  let domain := entityDomain entityId
  let attrs := st.attributes
  if command = "light/toggle" then
    if domain = "light" then
      .ok { domain := "light",
            service := if currentState = "on" then "turn_off" else "turn_on",
            entityId := entityId }
    else
      .ok { domain := "homeassistant", service := "toggle", entityId := entityId }
  else if command = "light/set_brightness" then
    if domain ≠ "light" then .error "Brightness supported only for lights"
    else .ok { domain := "light", service := "turn_on", entityId := entityId,
               brightness_pct := some (clamp (value.getD 0) 0 100) }
  else if command = "blind/open" then
    .ok { domain := "cover", service := "open_cover", entityId := entityId }
  else if command = "blind/close" then
    .ok { domain := "cover", service := "close_cover", entityId := entityId }
  else if command = "media/play_pause" then
    .ok { domain := "media_player",
          service := if currentState = "playing" then "media_pause" else "media_play",
          entityId := entityId }
  else if command = "media/next" then
    .ok { domain := "media_player", service := "media_next_track", entityId := entityId }
  else if command = "media/previous" then
    .ok { domain := "media_player", service := "media_previous_track", entityId := entityId }
  else if command = "media/volume_up" then
    .ok { domain := "media_player", service := "volume_up", entityId := entityId }
  else if command = "media/volume_down" then
    .ok { domain := "media_player", service := "volume_down", entityId := entityId }
  else if command = "media/volume_set" then
    .ok { domain := "media_player", service := "volume_set", entityId := entityId,
          volume_level := some (clamp ((value.getD 0) / 100) 0 1) }
  else if command = "boiler/temp_up" ∨ command = "boiler/temp_down" then
    let currentTemp : ℚ :=
      match lookupAttr attrs "temperature" with
      | some (.num q) => q
      | _ =>
        match lookupAttr attrs "current_temperature" with
        | some (.num q) => q
        | _ => 20
    let delta : ℚ := if command = "boiler/temp_up" then 1 else -1
    .ok { domain := "climate", service := "set_temperature", entityId := entityId,
          temperature := some (currentTemp + delta) }
  else if command = "tv/toggle_power" ∨ command = "speaker/toggle_power" then
    .ok { domain := "media_player",
          service := if currentState = "off" ∨ currentState = "standby"
                     then "turn_on" else "turn_off",
          entityId := entityId }
  else
    .error ("Unsupported command " ++ command)

/-- handleDeviceCommand from src/utils/haCommands.ts: numeric validation,
then the state read (its outcome is the stateResult oracle), then the
dispatch switch.  The second component is the trace of gateway effects. -/
def handleDeviceCommand (entityId command : String) (value : Option ℚ)
    (stateResult : Except String HAState) :
    Except String ServiceCall × List HaEffect :=
  if NUMERIC_COMMANDS.contains command ∧ value = none then
    (.error "Command requires numeric value", [])
  else
    match stateResult with
    | .error e => (.error e, [.stateRead entityId])
    | .ok st =>
      match dispatchCommand entityId command value st with
      | .error e2 => (.error e2, [.stateRead entityId])
      | .ok call => (.ok call, [.stateRead entityId, .service call])

/-- User roles (src/models/roles.ts). -/
inductive Role
  | admin
  | tenant
deriving DecidableEq

/-- Mode selecting the upstream URL (src/api/dinodia.ts HaMode). -/
inductive HaMode
  | home
  | cloud
deriving DecidableEq

/-- Tenant area-visibility grant (AccessRule row). -/
structure AccessRule where
  id : Int
  userId : Int
  area : String
deriving DecidableEq

/-- Backend device override record (src/models/device.ts DeviceOverride). -/
structure DeviceOverride where
  id : Int
  haConnectionId : Int
  entityId : String
  name : String
  area : Option String
  label : Option String
deriving DecidableEq

/-- Per-entity metadata computed by the gateway template query
(src/api/ha.ts TemplateDeviceMeta). -/
structure TemplateDeviceMeta where
  entity_id : String
  area_name : Option String
  labels : List String
  device_id : Option String
deriving DecidableEq

/-- Gateway device merged with template metadata (src/api/ha.ts EnrichedDevice). -/
structure EnrichedDevice where
  entityId : String
  name : String
  state : String
  areaName : Option String
  labels : List String
  labelCategory : Option String
  domain : String
  attributes : List (String × AttrVal)
  deviceId : Option String
deriving DecidableEq

/-- UI-ready device shape (src/models/device.ts UIDevice, as produced by
fetchDevicesForUser which also attaches deviceId). -/
structure UIDevice where
  entityId : String
  deviceId : Option String
  name : String
  state : String
  area : Option String
  areaName : Option String
  labels : List String
  label : Option String
  labelCategory : Option String
  domain : String
  attributes : List (String × AttrVal)
deriving DecidableEq

/-- Automation connection record (src/models/haConnection.ts). -/
structure HaConnection where
  id : Int
  baseUrl : String
  cloudUrl : Option String
  haUsername : String
  haPassword : String
  longLivedToken : String
  ownerId : Int
deriving DecidableEq

/-- A User table row (src/models/user.ts, fields the resolver selects). -/
structure UserRec where
  id : Int
  username : String
  role : Role
  haConnectionId : Option Int
deriving DecidableEq

/-- User plus its access rules (src/api/dinodia.ts UserWithRelations). -/
structure UserWithRelations where
  id : Int
  username : String
  role : Role
  haConnectionId : Option Int
  accessRules : List AccessRule
deriving DecidableEq

/-- The relational backend state: User, HaConnection and AccessRule tables. -/
structure DB where
  users : List UserRec
  connections : List HaConnection
  accessRules : List AccessRule
deriving DecidableEq

/-- Template-metadata lookup map built by `metaByEntity.set` in a loop:
the last row for an entity_id wins. -/
def metaFor (meta : List TemplateDeviceMeta) (eid : String) :
    Option TemplateDeviceMeta :=
  meta.foldl (fun acc m => if m.entity_id == eid then some m else acc) none

/-- Enrichment of one gateway state with template metadata
(the map body of getDevicesWithMetadata in src/api/ha.ts); `classify` stands
for classifyDeviceByLabel from src/utils/labelCatalog.ts. -/
def enrichDevice (classify : List String → Option String)
    (meta : List TemplateDeviceMeta) (s : HAState) : EnrichedDevice :=
  let domain := entityDomain s.entity_id
  let mEntry := metaFor meta s.entity_id
  let deviceId : Option String :=
    match mEntry with
    | some m =>
      match m.device_id with
      | some d => if jsTrim d ≠ "" then some d else none
      | none => none
    | none => none
  let labels := (match mEntry with
    | some m => m.labels
    | none => []).filter (fun l => jsTrim l ≠ "")
  let labelCategory :=
    match classify labels with
    | some c => some c
    | none => classify [domain]
  { entityId := s.entity_id
    name := s.friendly_name.getD s.entity_id
    state := s.state
    areaName := mEntry.bind (fun m => m.area_name)
    labels := labels
    labelCategory := labelCategory
    domain := domain
    attributes := s.attributes
    deviceId := deviceId }

/-- getDevicesWithMetadata (src/api/ha.ts): states from /api/states, template
metadata from /api/template; a template failure is swallowed and defaults the
metadata to the empty list. -/
def getDevicesWithMetadataFrom (classify : List String → Option String)
    (states : List HAState)
    (metaResult : Except String (List TemplateDeviceMeta)) : List EnrichedDevice :=
  let meta := match metaResult with
    | .ok m => m
    | .error _ => []
  states.map (enrichDevice classify meta)

/-- Override lookup map built by `overrideMap.set` in a forEach:
the last override for an entityId wins. -/
def overrideFor (ovs : List DeviceOverride) (eid : String) : Option DeviceOverride :=
  ovs.foldl (fun acc o => if o.entityId == eid then some o else acc) none

/-- Override application and shaping for one device
(step 3 of fetchDevicesForUser, src/api/dinodia.ts lines 178-202); an override
label equal to "" is falsy in the labels conditional but non-nullish in the
display-label chain, exactly as in the JS source. -/
def applyOverride (classify : List String → Option String)
    (ov : Option DeviceOverride) (d : EnrichedDevice) : UIDevice :=
  let name := match ov with
    | some o => o.name
    | none => d.name
  let areaName := match ov.bind (fun o => o.area) with
    | some a => some a
    | none => d.areaName
  let ovLabel := ov.bind (fun o => o.label)
  let labels := match ovLabel with
    | some l => if l = "" then d.labels else [l]
    | none => d.labels
  let labelCategory := match classify labels with
    | some c => some c
    | none => d.labelCategory
  let primaryLabel := match labels with
    | [] => none
    | l :: _ => if l = "" then none else some l
  let label := match ovLabel with
    | some l => some l
    | none =>
      match primaryLabel with
      | some p => some p
      | none => labelCategory
  { entityId := d.entityId
    deviceId := d.deviceId
    name := name
    state := d.state
    area := areaName
    areaName := areaName
    labels := labels
    label := label
    labelCategory := labelCategory
    domain := d.domain
    attributes := d.attributes }

/-- The merged device list: overrides applied to every enriched device. -/
def mergeDevices (classify : List String → Option String)
    (ovs : List DeviceOverride) (enriched : List EnrichedDevice) : List UIDevice :=
  enriched.map (fun d => applyOverride classify (overrideFor ovs d.entityId) d)

/-- Step 4 of fetchDevicesForUser: tenant filtering by AccessRule. -/
def tenantFilter (rules : List AccessRule) (devices : List UIDevice) : List UIDevice :=
  devices.filter (fun d => d.areaName.isSome && rules.any (fun r => d.areaName == some r.area))

/-- `replace(/\/+$/, '')` — drop all trailing slashes. -/
def stripTrailingSlashes (s : String) : String :=
  String.mk (s.toList.reverse.dropWhile (fun c => c = '/')).reverse

/-- `mode === 'cloud' ? haConnection.cloudUrl : haConnection.baseUrl`. -/
def selectModeUrl (conn : HaConnection) (mode : HaMode) : Option String :=
  match mode with
  | .cloud => conn.cloudUrl
  | .home => some conn.baseUrl

/-- `(rawUrl ?? '').trim().replace(/\/+$/, '')`. -/
def effectiveModeUrl (conn : HaConnection) (mode : HaMode) : String :=
  stripTrailingSlashes (jsTrim ((selectModeUrl conn mode).getD ""))

/-- Outcomes of the external calls one fetchDevicesForUser run may perform:
the reachability probe, the two gateway requests and the override select. -/
structure HaEnv where
  probeOk : Bool
  statesResult : Except String (List HAState)
  metaResult : Except String (List TemplateDeviceMeta)
  overridesResult : Except String (List DeviceOverride)

/-- Observable external effects of one fetchDevicesForUser run. -/
inductive FetchEffect
  | probe
  | gatewayStates
  | gatewayTemplate
  | overridesQuery
deriving DecidableEq

/-- fetchDevicesForUser after connection resolution
(src/api/dinodia.ts lines 128-215): URL selection and the empty-URL early
return, reachability probe, gateway fetch, override load, merge, tenant
filter.  The second component is the trace of external effects. -/
def fetchDevicesForUserCore (classify : List String → Option String)
    (user : UserWithRelations) (conn : HaConnection) (mode : HaMode)
    (env : HaEnv) : Except String (List UIDevice) × List FetchEffect :=
  let baseUrl := effectiveModeUrl conn mode
  if baseUrl = "" then (.ok [], [])
  else if env.probeOk = false then
    (.error (match mode with
      | .home => "Unable to reach Home Assistant on the local network."
      | .cloud => "Unable to reach Home Assistant via cloud."), [.probe])
  else
    match env.statesResult with
    | .error e =>
      (.error ("Unable to reach Home Assistant: " ++ e), [.probe, .gatewayStates])
    | .ok states =>
      let enriched := getDevicesWithMetadataFrom classify states env.metaResult
      match env.overridesResult with
      | .error e =>
        (.error e, [.probe, .gatewayStates, .gatewayTemplate, .overridesQuery])
      | .ok ovs =>
        let devices := mergeDevices classify ovs enriched
        let result := if user.role = Role.tenant
          then tenantFilter user.accessRules devices
          else devices
        (.ok result, [.probe, .gatewayStates, .gatewayTemplate, .overridesQuery])

/-- `supabase.from('User').select(...).eq('id', userId).single()`. -/
def findUser (db : DB) (uid : Int) : Option UserRec :=
  db.users.find? (fun u => u.id == uid)

/-- `supabase.from('AccessRule').select('*').eq('userId', userId)`. -/
def rulesFor (db : DB) (uid : Int) : List AccessRule :=
  db.accessRules.filter (fun r => r.userId == uid)

/-- fetchUserWithRelations (src/api/dinodia.ts): the user row plus its rules. -/
def fetchUserWithRelations (db : DB) (uid : Int) : Option UserWithRelations :=
  (findUser db uid).map (fun u =>
    { id := u.id, username := u.username, role := u.role,
      haConnectionId := u.haConnectionId, accessRules := rulesFor db uid })

/-- fetchHaConnectionById (errors are swallowed into null). -/
def connById (db : DB) (cid : Int) : Option HaConnection :=
  db.connections.find? (fun c => c.id == cid)

/-- fetchHaConnectionOwnedBy: first connection with the given ownerId. -/
def connOwnedBy (db : DB) (uid : Int) : Option HaConnection :=
  db.connections.find? (fun c => c.ownerId == uid)

/-- The `.eq('role','ADMIN').limit(1)` query: the first admin row. -/
def firstAdmin (db : DB) : Option UserRec :=
  db.users.find? (fun u => u.role == Role.admin)

/-- The row transformation of `update({ haConnectionId }).eq('id', uid)`. -/
def setConnFn (uid cid : Int) (u : UserRec) : UserRec :=
  if u.id == uid then { u with haConnectionId := some cid } else u

/-- `supabase.from('User').update({ haConnectionId: cid }).eq('id', uid)`. -/
def setUserConn (db : DB) (uid cid : Int) : DB :=
  { db with users := db.users.map (setConnFn uid cid) }

/-- The same row transformation lifted to a user with relations. -/
def setConnRelFn (tid cid : Int) (w : UserWithRelations) : UserWithRelations :=
  if w.id == tid then { w with haConnectionId := some cid } else w

/-- JS truthiness of a nullable numeric id: null and 0 are both falsy. -/
def truthyId : Option Int → Option Int
  | some cid => if cid = 0 then none else some cid
  | none => none

/-- Steps 2-3 of the resolver: the user's explicit connection id, else (for an
admin) a connection it owns. -/
def resolveDirect (db : DB) (user : UserWithRelations) : Option HaConnection :=
  let direct := match truthyId user.haConnectionId with
    | some cid => connById db cid
    | none => none
  match direct with
  | some c => some c
  | none => if user.role = Role.admin then connOwnedBy db user.id else none

/-- `admin?.haConnectionId ?? adminOwned?.id ?? null`: the connection id the
first admin designates (explicit id, else the id of a connection it owns). -/
def adminConnIdOf (db : DB) : Option Int :=
  match (firstAdmin db).bind (fun a => a.haConnectionId) with
  | some cid => some cid
  | none => ((firstAdmin db).bind (fun a => connOwnedBy db a.id)).map (fun c => c.id)

/-- Successful resolution result together with the backend state it leaves. -/
structure ResolveOk where
  user : UserWithRelations
  haConnection : HaConnection
  db : DB
deriving DecidableEq

/-- The admin backfill write: when the first admin has no (truthy) explicit
connection id but an admin connection id was determined, store that id on the
admin row. -/
def backfillAdmin (db : DB) (cid : Int) : DB :=
  match firstAdmin db with
  | some a =>
    if truthyId a.haConnectionId = none then setUserConn db a.id cid else db
  | none => db

/-- The tenant admin-pinning path (src/api/dinodia.ts lines 93-110): backfill
the admin id if needed, write the admin's connection id onto the tenant, fetch
that connection, and refetch the user. -/
def resolveTenantAdmin (db : DB) (userId cid : Int) : Except String ResolveOk :=
  let db2 := setUserConn (backfillAdmin db cid) userId cid
  match connById db2 cid with
  | none => .error "HA connection not found"
  | some ha =>
    match fetchUserWithRelations db2 userId with
    | none => .error "HA connection not configured"
    | some u2 => .ok { user := u2, haConnection := ha, db := db2 }

/-- getUserWithHaConnection (src/api/dinodia.ts lines 59-121): direct
resolution, then for tenants the admin-pinning re-resolution; when no admin
connection id is found, a tenant falls back to its directly resolved
connection, and errors only when that is also absent. -/
def getUserWithHaConnection (db : DB) (userId : Int) : Except String ResolveOk :=
  match fetchUserWithRelations db userId with
  | none => .error "User not found"
  | some user =>
    if user.role = Role.tenant then
      match truthyId (adminConnIdOf db) with
      | some cid => resolveTenantAdmin db userId cid
      | none =>
        match resolveDirect db user with
        | none => .error "HA connection not configured for any admin"
        | some ha => .ok { user := user, haConnection := ha, db := db }
    else
      match resolveDirect db user with
      | none => .error "HA connection not configured"
      | some ha => .ok { user := user, haConnection := ha, db := db }

/-- fetchDevicesForUser (src/api/dinodia.ts): resolve the user and connection,
then run the core pipeline; pairs the device list with the backend state the
resolution left behind. -/
def fetchDevicesForUser (classify : List String → Option String) (db : DB)
    (userId : Int) (mode : HaMode) (env : HaEnv) :
    Except String (List UIDevice × DB) × List FetchEffect :=
  match getUserWithHaConnection db userId with
  | .error e => (.error e, [])
  | .ok r =>
    match fetchDevicesForUserCore classify r.user r.haConnection mode env with
    | (.ok ds, fx) => (.ok (ds, r.db), fx)
    | (.error e, fx) => (.error e, fx)

/-- A stored JSON blob: either parsable back into its payload type, or
malformed (JSON.parse would throw). -/
inductive StoredVal (α : Type)
  | good (a : α)
  | bad
deriving DecidableEq

/-- AsyncStorage: per-key blobs, plus a flag saying whether the underlying
storage I/O currently fails. -/
structure KVStore (α : Type) where
  data : List (String × StoredVal α)
  ioFails : Bool
deriving DecidableEq

/-- Raw key lookup in the store. -/
def kvLookup {α : Type} (s : KVStore α) (k : String) : Option (StoredVal α) :=
  (s.data.find? (fun p => p.1 == k)).map (fun p => p.2)

/-- AsyncStorage.setItem: fails when the underlying I/O fails. -/
def setItem {α : Type} (s : KVStore α) (k : String) (v : α) :
    Except String (KVStore α) :=
  if s.ioFails then .error "storage failure"
  else .ok { s with data := (k, .good v) :: s.data.filter (fun p => p.1 != k) }

/-- AsyncStorage.getItem: fails when the underlying I/O fails. -/
def getItem {α : Type} (s : KVStore α) (k : String) :
    Except String (Option (StoredVal α)) :=
  if s.ioFails then .error "storage failure" else .ok (kvLookup s k)

/-- AsyncStorage.removeItem: fails when the underlying I/O fails. -/
def removeItem {α : Type} (s : KVStore α) (k : String) :
    Except String (KVStore α) :=
  if s.ioFails then .error "storage failure"
  else .ok { s with data := s.data.filter (fun p => p.1 != k) }

/-- saveJson (src/utils/storage.ts): JSON.stringify then setItem, with no
try/catch of its own. -/
def saveJson {α : Type} (s : KVStore α) (k : String) (v : α) :
    Except String (KVStore α) :=
  setItem s k v

/-- loadJson (src/utils/storage.ts): getItem (uncaught), then JSON.parse with
parse errors caught and turned into null. -/
def loadJson {α : Type} (s : KVStore α) (k : String) : Except String (Option α) :=
  match getItem s k with
  | .error e => .error e
  | .ok none => .ok none
  | .ok (some .bad) => .ok none
  | .ok (some (.good a)) => .ok (some a)

/-- removeKey (src/utils/storage.ts): removeItem, with no try/catch. -/
def removeKey {α : Type} (s : KVStore α) (k : String) : Except String (KVStore α) :=
  removeItem s k

/-- One cached device snapshot (src/store/deviceStore.ts DeviceCacheEntry). -/
structure DeviceCacheEntry where
  devices : List UIDevice
  updatedAt : Int
deriving DecidableEq

/-- The suffix of the cache key naming the mode. -/
def modeKey : HaMode → String
  | .home => "home"
  | .cloud => "cloud"

/-- The cache key: `dinodia_devices_{userId}_{mode}`. -/
def cacheKey (userId : Int) (mode : HaMode) : String :=
  "dinodia_devices_" ++ toString userId ++ "_" ++ modeKey mode

/-- The in-memory device cache map (memoryCache in src/store/deviceStore.ts). -/
abbrev MemCache := List (String × DeviceCacheEntry)

/-- memoryCache.get. -/
def memLookup (mem : MemCache) (k : String) : Option DeviceCacheEntry :=
  (mem.find? (fun p => p.1 == k)).map (fun p => p.2)

/-- memoryCache.set. -/
def memSet (mem : MemCache) (k : String) (e : DeviceCacheEntry) : MemCache :=
  (k, e) :: mem.filter (fun p => p.1 != k)

/-- memoryCache.delete. -/
def memDrop (mem : MemCache) (k : String) : MemCache :=
  mem.filter (fun p => p.1 != k)

/-- persistCache (src/store/deviceStore.ts): set the memory entry, then
saveJson with the storage error caught and ignored. -/
def persistCache (mem : MemCache) (stor : KVStore DeviceCacheEntry)
    (key : String) (entry : DeviceCacheEntry) :
    Except String (MemCache × KVStore DeviceCacheEntry) :=
  let mem1 := memSet mem key entry
  match saveJson stor key entry with
  | .ok st1 => .ok (mem1, st1)
  | .error _ => .ok (mem1, stor)

/-- readFromStorage (src/store/deviceStore.ts): the memory entry if present,
else loadJson with any storage error caught and treated as a miss; a valid
stored entry is promoted into memory. -/
def readFromStorage (mem : MemCache) (stor : KVStore DeviceCacheEntry)
    (key : String) : Except String (Option DeviceCacheEntry × MemCache) :=
  match memLookup mem key with
  | some e => .ok (some e, mem)
  | none =>
    match loadJson stor key with
    | .ok (some stored) => .ok (some stored, memSet mem key stored)
    | .ok none => .ok (none, mem)
    | .error _ => .ok (none, mem)

/-- clearDeviceCacheForUserAndMode (src/store/deviceStore.ts): drop the memory
entry and the in-flight entry, then removeKey with storage errors caught. -/
def clearDeviceCacheForUserAndMode (mem : MemCache) (_inflight : Option Nat)
    (stor : KVStore DeviceCacheEntry) (key : String) :
    Except String (MemCache × Option Nat × KVStore DeviceCacheEntry) :=
  let mem1 := memDrop mem key
  match removeKey stor key with
  | .ok st1 => .ok (mem1, none, st1)
  | .error _ => .ok (mem1, none, stor)

/-- The reactive state held by one useDevices hook instance for one cache key,
together with the shared memory cache and persisted storage. -/
structure HookState where
  mounted : Bool
  requestId : Nat
  memCache : MemCache
  storage : KVStore DeviceCacheEntry
  devices : List UIDevice
  lastUpdated : Option Int
  refreshing : Bool
  errorMsg : Option String

/-- updateState in useDevices: apply a cache entry to the UI state only while
the hook is mounted. -/
def updateHookState (entry : Option DeviceCacheEntry) (st : HookState) : HookState :=
  match entry with
  | none => st
  | some e =>
    if st.mounted then { st with devices := e.devices, lastUpdated := some e.updatedAt }
    else st

/-- The synchronous start of refreshDevices: a non-background call bumps the
request id (the staleness guard) and sets the refreshing flag; the returned
value is currentRequestId. -/
def refreshStart (silent : Bool) (st : HookState) : HookState × Option Nat :=
  if silent then (st, none)
  else
    ({ st with requestId := st.requestId + 1, refreshing := true },
      some (st.requestId + 1))

/-- The finally block of refreshDevices: drop the refreshing flag only when
still mounted, non-background and still the latest request. -/
def refreshFinally (silent : Bool) (currentRequestId : Option Nat)
    (st : HookState) : HookState :=
  if st.mounted ∧ silent = false ∧ currentRequestId = some st.requestId
  then { st with refreshing := false } else st

/-- The resumption of refreshDevices once the shared fetch settles
(src/store/deviceStore.ts lines 124-149): on success, apply the entry unless
unmounted or superseded; on failure, record the error and write an empty
freshly-timestamped entry through persistCache -- but only when still mounted
and (for non-background calls) not superseded.  `st` carries the mounted flag
and request id as they stand when the await returns. -/
def refreshResume (silent : Bool) (currentRequestId : Option Nat)
    (outcome : Except String DeviceCacheEntry) (now : Int) (key : String)
    (st : HookState) : HookState × Option (List UIDevice) :=
  match outcome with
  | .ok entry =>
    if st.mounted = false then (refreshFinally silent currentRequestId st, none)
    else if currentRequestId ≠ none ∧ currentRequestId ≠ some st.requestId then
      (refreshFinally silent currentRequestId st, none)
    else
      let st1 := updateHookState (some entry) st
      let st2 := { st1 with errorMsg := none }
      (refreshFinally silent currentRequestId st2, some entry.devices)
  | .error msg =>
    if st.mounted ∧ (currentRequestId = none ∨ currentRequestId = some st.requestId) then
      let st1 := { st with errorMsg := some msg }
      let emptyEntry : DeviceCacheEntry := { devices := [], updatedAt := now }
      let st2 := match persistCache st1.memCache st1.storage key emptyEntry with
        | .ok (mem1, stor1) => { st1 with memCache := mem1, storage := stor1 }
        | .error _ => st1
      let st3 := updateHookState (some emptyEntry) st2
      (refreshFinally silent currentRequestId st3, none)
    else (refreshFinally silent currentRequestId st, none)

/-- The phase of one fetchAndCacheDevices caller: not yet started, awaiting a
fetch (as its issuer, or having joined the tracked in-flight one), or done. -/
inductive CallerPhase
  | idle
  | waiting (fid : Nat) (owner : Bool)
  | done (result : Except String DeviceCacheEntry)

/-- The event-loop state for one cache key: the tracked in-flight fetch, how
many gateway fetches were ever issued, and the callers. -/
structure DedupState where
  inflight : Option Nat
  fetchesIssued : Nat
  callers : List CallerPhase

/-- Whether some caller owns fetch f (its finally clause will clear the
in-flight entry when f settles). -/
def hasOwnerOf (callers : List CallerPhase) (f : Nat) : Bool :=
  callers.any (fun c => match c with
    | .waiting g isOwner => g == f && isOwner
    | _ => false)

/-- One fetchAndCacheDevices call up to its first await
(src/store/deviceStore.ts lines 53-68): the in-flight check, the fetch spawn
and the in-flight registration happen in one synchronous segment -- no await
separates the check from the set. -/
def startCall (s : DedupState) (i : Nat) : DedupState :=
  match s.callers[i]? with
  | some CallerPhase.idle =>
    match s.inflight with
    | some f => { s with callers := s.callers.set i (.waiting f false) }
    | none =>
      { inflight := some s.fetchesIssued,
        fetchesIssued := s.fetchesIssued + 1,
        callers := s.callers.set i (.waiting s.fetchesIssued true) }
  | _ => s

/-- Settling of fetch f: every caller awaiting f resumes with the shared
result, and the issuing caller's finally clause removes the in-flight entry. -/
def settleFetch (s : DedupState) (f : Nat)
    (result : Except String DeviceCacheEntry) : DedupState :=
  { inflight := if hasOwnerOf s.callers f then none else s.inflight,
    fetchesIssued := s.fetchesIssued,
    callers := s.callers.map (fun c => match c with
      | .waiting g isOwner => if g == f then .done result else .waiting g isOwner
      | other => other) }

/-- A connection owned by tenant 7 itself, with no admin account anywhere. -/
def tenantOnlyConn : HaConnection :=
  { id := 5, baseUrl := "http://ha.local:8123", cloudUrl := none,
    haUsername := "u", haPassword := "p", longLivedToken := "tok", ownerId := 7 }

/-- A backend with a single tenant that has an explicit connection id and no
admin user at all. -/
def tenantOnlyDb : DB :=
  { users := [{ id := 7, username := "t", role := Role.tenant,
                haConnectionId := some 5 }],
    connections := [tenantOnlyConn], accessRules := [] }

/-- The admin-owned connection in the pinning fixtures. -/
def pinConn : HaConnection :=
  { id := 5, baseUrl := "http://ha.local:8123", cloudUrl := none,
    haUsername := "u", haPassword := "p", longLivedToken := "tok", ownerId := 1 }

/-- A stale connection the tenant's own explicit id points at. -/
def pinStaleConn : HaConnection :=
  { id := 6, baseUrl := "http://old.local:8123", cloudUrl := none,
    haUsername := "u", haPassword := "p", longLivedToken := "old", ownerId := 9 }

/-- A backend with an admin (explicit connection 5) and a tenant whose own
explicit id points at the stale connection 6. -/
def pinDb : DB :=
  { users := [{ id := 1, username := "a", role := Role.admin,
                haConnectionId := some 5 },
              { id := 7, username := "t", role := Role.tenant,
                haConnectionId := some 6 }],
    connections := [pinConn, pinStaleConn], accessRules := [] }

/-- The tenant row of pinDb, with its (empty) access rules. -/
def pinTenant : UserWithRelations :=
  { id := 7, username := "t", role := Role.tenant, haConnectionId := some 6,
    accessRules := [] }

/-- A backend whose admin has no explicit connection id but owns connection 5,
and a tenant with no explicit id: the first resolution backfills both ids. -/
def idemDb : DB :=
  { users := [{ id := 1, username := "a", role := Role.admin,
                haConnectionId := none },
              { id := 7, username := "t", role := Role.tenant,
                haConnectionId := none }],
    connections := [pinConn], accessRules := [] }

/-- The resolution result the first call on idemDb produces: both ids
backfilled to 5, the admin connection returned. -/
def idemRes : ResolveOk :=
  { user := { id := 7, username := "t", role := Role.tenant,
              haConnectionId := some 5, accessRules := [] },
    haConnection := pinConn,
    db := { users := [{ id := 1, username := "a", role := Role.admin,
                        haConnectionId := some 5 },
                      { id := 7, username := "t", role := Role.tenant,
                        haConnectionId := some 5 }],
            connections := [pinConn], accessRules := [] } }

/-- Initial event-loop state for one key: no tracked in-flight fetch, no fetch
ever issued, two callers about to invoke fetchAndCacheDevices. -/
def dedupTwoIdle : DedupState :=
  { inflight := none, fetchesIssued := 0, callers := [.idle, .idle] }

/-- The demo living-room lamp fixture (src/config/demoData.ts), used as a
concrete device in counterexamples. -/
def demoLamp : UIDevice :=
  { entityId := "light.living_room_lamp", deviceId := none,
    name := "Living Room Lamp", state := "off",
    area := some "Living Room", areaName := some "Living Room",
    labels := ["Lighting"], label := some "Lighting",
    labelCategory := some "Lighting", domain := "light",
    attributes := [("brightness", AttrVal.num 0)] }

end Dinodia

namespace Dinodia

/-- C6: light/toggle on a light-domain entity issues turn_off exactly when the
current remote state is "on" and turn_on otherwise; a non-light domain gets the
generic homeassistant/toggle service; media/volume_set with numeric value v
sends volume_level = clamp(v/100, 0, 1), so value 150 yields level 1, not 3/2. -/
theorem command_directionality_and_clamp :
    ∀ (eid : String) (st : HAState) (vOpt : Option ℚ) (v : ℚ),
      (entityDomain eid = "light" → st.state = "on" →
        (handleDeviceCommand eid "light/toggle" vOpt (.ok st)).1 =
          .ok { domain := "light", service := "turn_off", entityId := eid }) ∧
      (entityDomain eid = "light" → st.state ≠ "on" →
        (handleDeviceCommand eid "light/toggle" vOpt (.ok st)).1 =
          .ok { domain := "light", service := "turn_on", entityId := eid }) ∧
      (entityDomain eid ≠ "light" →
        (handleDeviceCommand eid "light/toggle" vOpt (.ok st)).1 =
          .ok { domain := "homeassistant", service := "toggle", entityId := eid }) ∧
      ((handleDeviceCommand eid "media/volume_set" (some v) (.ok st)).1 =
        .ok { domain := "media_player", service := "volume_set", entityId := eid,
              volume_level := some (clamp (v / 100) 0 1) }) ∧
      (clamp ((150 : ℚ) / 100) 0 1 = 1) ∧
      ((handleDeviceCommand eid "media/volume_set" (some 150) (.ok st)).1 =
        .ok { domain := "media_player", service := "volume_set", entityId := eid,
              volume_level := some 1 }) := by
  intro eid st vOpt v
  refine ⟨?_, ?_, ?_, ?_, ?_, ?_⟩
  · intro hdom hon
    simp [handleDeviceCommand, dispatchCommand, NUMERIC_COMMANDS, hdom, hon]
  · intro hdom hon
    simp [handleDeviceCommand, dispatchCommand, NUMERIC_COMMANDS, hdom, hon]
  · intro hdom
    simp [handleDeviceCommand, dispatchCommand, NUMERIC_COMMANDS, hdom]
  · simp [handleDeviceCommand, dispatchCommand, NUMERIC_COMMANDS]
  · norm_num [clamp]
  · have hc : clamp ((150 : ℚ) / 100) 0 1 = 1 := by norm_num [clamp]
    simp [handleDeviceCommand, dispatchCommand, NUMERIC_COMMANDS, hc]

/-- Witness for C6 at concrete inputs: a light entity currently "on" toggles
off, and volume_set 150 clamps the payload level to 1. -/
theorem command_directionality_and_clamp_witness :
    entityDomain "light.lamp" = "light" ∧
    ({ entity_id := "light.lamp", state := "on", friendly_name := none,
       attributes := [] : HAState }).state = "on" ∧
    (handleDeviceCommand "light.lamp" "light/toggle" none
        (.ok { entity_id := "light.lamp", state := "on", friendly_name := none,
               attributes := [] })).1 =
      .ok { domain := "light", service := "turn_off", entityId := "light.lamp" } ∧
    (handleDeviceCommand "light.lamp" "media/volume_set" (some 150)
        (.ok { entity_id := "light.lamp", state := "on", friendly_name := none,
               attributes := [] })).1 =
      .ok { domain := "media_player", service := "volume_set",
            entityId := "light.lamp", volume_level := some 1 } := by
  have h := command_directionality_and_clamp "light.lamp"
    { entity_id := "light.lamp", state := "on", friendly_name := none, attributes := [] }
    none 150
  exact ⟨by decide, rfl, h.1 (by decide) rfl, h.2.2.2.2.2⟩

/-- The freshly set key is found in the memory cache. -/
theorem memLookup_memSet (mem : MemCache) (k : String) (e : DeviceCacheEntry) :
    memLookup (memSet mem k e) k = some e := by
  simp [memLookup, memSet, List.find?]

/-- A dropped key is no longer found in the memory cache. -/
theorem memLookup_memDrop (mem : MemCache) (k : String) :
    memLookup (memDrop mem k) k = none := by
  unfold memLookup memDrop
  cases h : (mem.filter (fun p => p.1 != k)).find? (fun p => p.1 == k) with
  | none => rfl
  | some p =>
    have hp := List.find?_some h
    have hmem := List.mem_of_find?_eq_some h
    have hne := List.of_mem_filter hmem
    rw [bne_iff_ne] at hne
    rw [beq_iff_eq] at hp
    exact absurd hp hne

/-- The finally block of refreshDevices only touches the refreshing flag. -/
theorem refreshFinally_fields (silent : Bool) (cid : Option Nat) (st : HookState) :
    (refreshFinally silent cid st).memCache = st.memCache ∧
    (refreshFinally silent cid st).storage = st.storage ∧
    (refreshFinally silent cid st).errorMsg = st.errorMsg ∧
    (refreshFinally silent cid st).devices = st.devices ∧
    (refreshFinally silent cid st).lastUpdated = st.lastUpdated := by
  unfold refreshFinally
  split
  · exact ⟨rfl, rfl, rfl, rfl, rfl⟩
  · exact ⟨rfl, rfl, rfl, rfl, rfl⟩

/-- Every label of an enriched device is non-empty: the enrichment filters the
template labels down to those with non-empty trimmed text.  This discharges
the label hypothesis of the override-precedence theorem for devices coming out
of the gateway pipeline. -/
theorem enrichDevice_labels_nonempty (classify : List String → Option String)
    (meta : List TemplateDeviceMeta) (s : HAState) :
    ∀ l ∈ (enrichDevice classify meta s).labels, l ≠ "" := by
  intro l hl
  have hl2 : l ∈ (match metaFor meta s.entity_id with
      | some m => m.labels
      | none => []).filter (fun x => jsTrim x ≠ "") := hl
  have hp := List.of_mem_filter hl2
  intro hcon
  subst hcon
  simp [jsTrim] at hp

/-- Membership in the tenant filter: a device passes exactly when its areaName
is non-null and matches the area of at least one access rule. -/
theorem mem_tenantFilter (rules : List AccessRule) (ds : List UIDevice) (d : UIDevice) :
    d ∈ tenantFilter rules ds ↔
      d ∈ ds ∧ ∃ a, d.areaName = some a ∧ ∃ r ∈ rules, r.area = a := by
  unfold tenantFilter
  rw [List.mem_filter]
  constructor
  · rintro ⟨hmem, hcond⟩
    rw [Bool.and_eq_true] at hcond
    obtain ⟨hsome, hany⟩ := hcond
    rw [Option.isSome_iff_exists] at hsome
    obtain ⟨a, ha⟩ := hsome
    rw [List.any_eq_true] at hany
    obtain ⟨r, hr, hbeq⟩ := hany
    rw [beq_iff_eq, ha] at hbeq
    exact ⟨hmem, a, ha, r, hr, (Option.some_inj.mp hbeq).symm⟩
  · rintro ⟨hmem, a, ha, r, hr, hra⟩
    refine ⟨hmem, ?_⟩
    rw [Bool.and_eq_true]
    constructor
    · rw [Option.isSome_iff_exists]; exact ⟨a, ha⟩
    · rw [List.any_eq_true]
      exact ⟨r, hr, by rw [beq_iff_eq, ha, hra]⟩

/-- C3: for a tenant, the core pipeline resolves exactly the merged devices
whose non-null areaName matches some access rule; a tenant with no rules
resolves to the empty list; an admin bypasses the filter and receives the
full merged list. -/
theorem tenant_visibility (classify : List String → Option String)
    (user : UserWithRelations) (conn : HaConnection) (mode : HaMode) (env : HaEnv)
    (states : List HAState) (ovs : List DeviceOverride)
    (hurl : ¬ effectiveModeUrl conn mode = "")
    (hprobe : env.probeOk = true)
    (hstates : env.statesResult = .ok states)
    (hovs : env.overridesResult = .ok ovs) :
    (user.role = Role.tenant →
      (fetchDevicesForUserCore classify user conn mode env).1 =
        .ok (tenantFilter user.accessRules
          (mergeDevices classify ovs
            (getDevicesWithMetadataFrom classify states env.metaResult))) ∧
      (∀ d, d ∈ tenantFilter user.accessRules
            (mergeDevices classify ovs
              (getDevicesWithMetadataFrom classify states env.metaResult)) ↔
          d ∈ mergeDevices classify ovs
            (getDevicesWithMetadataFrom classify states env.metaResult) ∧
          ∃ a, d.areaName = some a ∧ ∃ r ∈ user.accessRules, r.area = a) ∧
      (user.accessRules = [] →
        tenantFilter user.accessRules
          (mergeDevices classify ovs
            (getDevicesWithMetadataFrom classify states env.metaResult)) = [])) ∧
    (user.role = Role.admin →
      (fetchDevicesForUserCore classify user conn mode env).1 =
        .ok (mergeDevices classify ovs
          (getDevicesWithMetadataFrom classify states env.metaResult))) := by
  constructor
  · intro hrole
    refine ⟨?_, ?_, ?_⟩
    · simp [fetchDevicesForUserCore, hurl, hprobe, hstates, hovs, hrole]
    · intro d
      exact mem_tenantFilter user.accessRules _ d
    · intro hempty
      simp [tenantFilter, hempty]
  · intro hrole
    have hnt : ¬ user.role = Role.tenant := by rw [hrole]; intro h; cases h
    simp [fetchDevicesForUserCore, hurl, hprobe, hstates, hovs, hnt]

/-- Witness for C3, the spec's tenant-login scenario: tenant 7 with one rule
for "Living Room"; the gateway reports a Living Room device and a Garage
device; the resolved list contains only the Living Room device. -/
theorem tenant_visibility_witness :
    (fetchDevicesForUserCore (fun _ => none)
        { id := 7, username := "t", role := Role.tenant, haConnectionId := some 1,
          accessRules := [{ id := 1, userId := 7, area := "Living Room" }] }
        { id := 1, baseUrl := "http://ha.local:8123", cloudUrl := none,
          haUsername := "u", haPassword := "p", longLivedToken := "tok", ownerId := 1 }
        HaMode.home
        { probeOk := true,
          statesResult := .ok
            [{ entity_id := "light.sofa", state := "on", friendly_name := some "Sofa",
               attributes := [] },
             { entity_id := "light.garage", state := "off", friendly_name := some "Garage",
               attributes := [] }],
          metaResult := .ok
            [{ entity_id := "light.sofa", area_name := some "Living Room",
               labels := [], device_id := none },
             { entity_id := "light.garage", area_name := some "Garage",
               labels := [], device_id := none }],
          overridesResult := .ok [] }).1 =
      .ok [{ entityId := "light.sofa", deviceId := none, name := "Sofa", state := "on",
             area := some "Living Room", areaName := some "Living Room", labels := [],
             label := none, labelCategory := none, domain := "light", attributes := [] }] := by
  have h := (tenant_visibility (fun _ => none)
    { id := 7, username := "t", role := Role.tenant, haConnectionId := some 1,
      accessRules := [{ id := 1, userId := 7, area := "Living Room" }] }
    { id := 1, baseUrl := "http://ha.local:8123", cloudUrl := none,
      haUsername := "u", haPassword := "p", longLivedToken := "tok", ownerId := 1 }
    HaMode.home
    { probeOk := true,
      statesResult := .ok
        [{ entity_id := "light.sofa", state := "on", friendly_name := some "Sofa",
           attributes := [] },
         { entity_id := "light.garage", state := "off", friendly_name := some "Garage",
           attributes := [] }],
      metaResult := .ok
        [{ entity_id := "light.sofa", area_name := some "Living Room",
           labels := [], device_id := none },
         { entity_id := "light.garage", area_name := some "Garage",
           labels := [], device_id := none }],
      overridesResult := .ok [] }
    [{ entity_id := "light.sofa", state := "on", friendly_name := some "Sofa",
       attributes := [] },
     { entity_id := "light.garage", state := "off", friendly_name := some "Garage",
       attributes := [] }]
    []
    (by decide) rfl rfl rfl).1 rfl
  rw [h.1]
  rfl

/-- C4: with an override present, the resolved name always equals the
override name, a present override area/label wins regardless of the
gateway-reported values, an absent override area falls back to the gateway
area, and with no override label the first (non-empty) effective label becomes
the display label. -/
theorem override_precedence (classify : List String → Option String)
    (ov : DeviceOverride) (d : EnrichedDevice)
    (hlabels : ∀ l ∈ d.labels, l ≠ "") :
    (applyOverride classify (some ov) d).name = ov.name ∧
    (∀ a, ov.area = some a →
      (applyOverride classify (some ov) d).areaName = some a ∧
      (applyOverride classify (some ov) d).area = some a) ∧
    (ov.area = none →
      (applyOverride classify (some ov) d).areaName = d.areaName) ∧
    (∀ l, ov.label = some l →
      (applyOverride classify (some ov) d).label = some l) ∧
    (ov.label = none → ∀ l ls, d.labels = l :: ls →
      (applyOverride classify (some ov) d).label = some l) := by
  refine ⟨rfl, ?_, ?_, ?_, ?_⟩
  · intro a hA
    constructor <;> simp [applyOverride, hA]
  · intro hA
    simp [applyOverride, hA]
  · intro l hL
    simp [applyOverride, hL]
  · intro hL l ls hcons
    have hne : l ≠ "" := hlabels l (by rw [hcons]; exact List.mem_cons_self l ls)
    simp [applyOverride, hL, hcons, hne]

/-- Witness for C4 at concrete inputs: an override with name, area and label
set wins over the gateway values, and with the label absent the first gateway
label is displayed. -/
theorem override_precedence_witness :
    (∀ l ∈ ["Lighting"], l ≠ "") ∧
    (applyOverride (fun _ => none)
        (some { id := 1, haConnectionId := 1, entityId := "light.sofa",
                name := "Sofa Lamp", area := some "Lounge", label := some "Mood" })
        { entityId := "light.sofa", name := "sofa", state := "on",
          areaName := some "Living Room", labels := ["Lighting"],
          labelCategory := some "Lighting", domain := "light",
          attributes := [], deviceId := none }).name = "Sofa Lamp" ∧
    (applyOverride (fun _ => none)
        (some { id := 1, haConnectionId := 1, entityId := "light.sofa",
                name := "Sofa Lamp", area := some "Lounge", label := some "Mood" })
        { entityId := "light.sofa", name := "sofa", state := "on",
          areaName := some "Living Room", labels := ["Lighting"],
          labelCategory := some "Lighting", domain := "light",
          attributes := [], deviceId := none }).areaName = some "Lounge" ∧
    (applyOverride (fun _ => none)
        (some { id := 1, haConnectionId := 1, entityId := "light.sofa",
                name := "Sofa Lamp", area := some "Lounge", label := some "Mood" })
        { entityId := "light.sofa", name := "sofa", state := "on",
          areaName := some "Living Room", labels := ["Lighting"],
          labelCategory := some "Lighting", domain := "light",
          attributes := [], deviceId := none }).label = some "Mood" ∧
    (applyOverride (fun _ => none)
        (some { id := 1, haConnectionId := 1, entityId := "light.sofa",
                name := "Sofa Lamp", area := none, label := none })
        { entityId := "light.sofa", name := "sofa", state := "on",
          areaName := some "Living Room", labels := ["Lighting"],
          labelCategory := some "Lighting", domain := "light",
          attributes := [], deviceId := none }).label = some "Lighting" := by
  have hlab : ∀ l ∈ ["Lighting"], l ≠ ("" : String) := by decide
  have h1 := override_precedence (fun _ => none)
    { id := 1, haConnectionId := 1, entityId := "light.sofa",
      name := "Sofa Lamp", area := some "Lounge", label := some "Mood" }
    { entityId := "light.sofa", name := "sofa", state := "on",
      areaName := some "Living Room", labels := ["Lighting"],
      labelCategory := some "Lighting", domain := "light",
      attributes := [], deviceId := none } hlab
  have h2 := override_precedence (fun _ => none)
    { id := 1, haConnectionId := 1, entityId := "light.sofa",
      name := "Sofa Lamp", area := none, label := none }
    { entityId := "light.sofa", name := "sofa", state := "on",
      areaName := some "Living Room", labels := ["Lighting"],
      labelCategory := some "Lighting", domain := "light",
      attributes := [], deviceId := none } hlab
  exact ⟨hlab, h1.1, (h1.2.1 "Lounge" rfl).1, h1.2.2.2.1 "Mood" rfl,
    h2.2.2.2.2 rfl "Lighting" [] rfl⟩

/-- C5: when the URL selected for the mode is empty or unset after trimming,
fetchDevicesForUser resolves the user and then returns an empty list with no
error, performing no reachability probe and no gateway call. -/
theorem mode_url_default (classify : List String → Option String) (db : DB)
    (uid : Int) (mode : HaMode) (env : HaEnv) (r : ResolveOk)
    (hres : getUserWithHaConnection db uid = .ok r)
    (hurl : jsTrim ((selectModeUrl r.haConnection mode).getD "") = "") :
    fetchDevicesForUser classify db uid mode env = (.ok ([], r.db), []) := by
  have hempty : effectiveModeUrl r.haConnection mode = "" := by
    unfold effectiveModeUrl
    rw [hurl]
    rfl
  unfold fetchDevicesForUser
  rw [hres]
  unfold fetchDevicesForUserCore
  simp [hempty]

/-- Witness for C5: an admin whose connection has cloudUrl = null, queried in
cloud mode, gets an empty device list and no probe or gateway traffic. -/
theorem mode_url_default_witness :
    getUserWithHaConnection
        { users := [{ id := 1, username := "a", role := Role.admin,
                      haConnectionId := some 5 }],
          connections := [{ id := 5, baseUrl := "http://ha.local:8123",
                            cloudUrl := none, haUsername := "u", haPassword := "p",
                            longLivedToken := "tok", ownerId := 1 }],
          accessRules := [] } 1 =
      .ok { user := { id := 1, username := "a", role := Role.admin,
                      haConnectionId := some 5, accessRules := [] },
            haConnection := { id := 5, baseUrl := "http://ha.local:8123",
                              cloudUrl := none, haUsername := "u", haPassword := "p",
                              longLivedToken := "tok", ownerId := 1 },
            db := { users := [{ id := 1, username := "a", role := Role.admin,
                                haConnectionId := some 5 }],
                    connections := [{ id := 5, baseUrl := "http://ha.local:8123",
                                      cloudUrl := none, haUsername := "u",
                                      haPassword := "p", longLivedToken := "tok",
                                      ownerId := 1 }],
                    accessRules := [] } } ∧
    fetchDevicesForUser (fun _ => none)
        { users := [{ id := 1, username := "a", role := Role.admin,
                      haConnectionId := some 5 }],
          connections := [{ id := 5, baseUrl := "http://ha.local:8123",
                            cloudUrl := none, haUsername := "u", haPassword := "p",
                            longLivedToken := "tok", ownerId := 1 }],
          accessRules := [] } 1 HaMode.cloud
        { probeOk := true, statesResult := .ok [], metaResult := .ok [],
          overridesResult := .ok [] } =
      (.ok ([], { users := [{ id := 1, username := "a", role := Role.admin,
                              haConnectionId := some 5 }],
                  connections := [{ id := 5, baseUrl := "http://ha.local:8123",
                                    cloudUrl := none, haUsername := "u",
                                    haPassword := "p", longLivedToken := "tok",
                                    ownerId := 1 }],
                  accessRules := [] }), []) := by
  constructor
  · rfl
  · exact mode_url_default (fun _ => none) _ 1 HaMode.cloud
      { probeOk := true, statesResult := .ok [], metaResult := .ok [],
        overridesResult := .ok [] }
      { user := { id := 1, username := "a", role := Role.admin,
                  haConnectionId := some 5, accessRules := [] },
        haConnection := { id := 5, baseUrl := "http://ha.local:8123",
                          cloudUrl := none, haUsername := "u", haPassword := "p",
                          longLivedToken := "tok", ownerId := 1 },
        db := { users := [{ id := 1, username := "a", role := Role.admin,
                            haConnectionId := some 5 }],
                connections := [{ id := 5, baseUrl := "http://ha.local:8123",
                                  cloudUrl := none, haUsername := "u",
                                  haPassword := "p", longLivedToken := "tok",
                                  ownerId := 1 }],
                accessRules := [] } }
      rfl rfl

/-- C10: handleDeviceCommand reads the entity state before issuing any service
call, for every command; if the state read fails the whole command fails with
no service call issued; only the numeric-value validation happens before the
read; and every run that passes validation starts its effect trace with the
state read. -/
theorem command_state_read_precedes_service :
    ∀ (eid cmd : String) (v : Option ℚ) (e : String),
      (¬ (NUMERIC_COMMANDS.contains cmd = true ∧ v = none) →
        handleDeviceCommand eid cmd v (.error e) =
          (.error e, [.stateRead eid])) ∧
      (NUMERIC_COMMANDS.contains cmd = true → v = none →
        ∀ stateResult, handleDeviceCommand eid cmd v stateResult =
          (.error "Command requires numeric value", [])) ∧
      (¬ (NUMERIC_COMMANDS.contains cmd = true ∧ v = none) →
        ∀ stateResult, ∃ rest,
          (handleDeviceCommand eid cmd v stateResult).2 =
            HaEffect.stateRead eid :: rest) := by
  intro eid cmd v e
  refine ⟨?_, ?_, ?_⟩
  · intro hval
    simp only [handleDeviceCommand, if_neg hval]
  · intro hnum hnone stateResult
    subst hnone
    have hmem : cmd ∈ NUMERIC_COMMANDS := by simpa using hnum
    simp [handleDeviceCommand, hmem]
  · intro hval stateResult
    simp only [handleDeviceCommand, if_neg hval]
    match stateResult with
    | .error e2 => exact ⟨[], rfl⟩
    | .ok st =>
      match h : dispatchCommand eid cmd v st with
      | .error e2 => exact ⟨[], by simp [h]⟩
      | .ok call => exact ⟨[.service call], by simp [h]⟩

/-- Witness for C10 at concrete inputs: blind/open with a failing state read
fails without a service call, and media/volume_set without a numeric value is
rejected before the read. -/
theorem command_state_read_precedes_service_witness :
    (¬ (NUMERIC_COMMANDS.contains "blind/open" = true ∧ (none : Option ℚ) = none)) ∧
    handleDeviceCommand "cover.blind" "blind/open" none (.error "timeout") =
      (.error "timeout", [.stateRead "cover.blind"]) ∧
    NUMERIC_COMMANDS.contains "media/volume_set" = true ∧
    handleDeviceCommand "media_player.tv" "media/volume_set" none (.error "timeout") =
      (.error "Command requires numeric value", []) := by
  refine ⟨by decide, ?_, by decide, ?_⟩
  · exact (command_state_read_precedes_service "cover.blind" "blind/open" none "timeout").1
      (by decide)
  · exact (command_state_read_precedes_service "media_player.tv" "media/volume_set" none
      "timeout").2.1 (by decide) rfl (.error "timeout")

/-- C1: two concurrent fetchAndCacheDevices calls for the same key cause
exactly one gateway fetch -- the second call finds and joins the tracked
in-flight fetch because the in-flight check and registration share one
synchronous segment; the tracking entry is still present after both calls and
is removed exactly when the shared operation settles, at which point both
callers hold the same result object. -/
theorem dedup_single_inflight_fetch :
    ∀ (r : Except String DeviceCacheEntry) (i j : Nat),
      (i = 0 ∧ j = 1) ∨ (i = 1 ∧ j = 0) →
      (startCall (startCall dedupTwoIdle i) j).fetchesIssued = 1 ∧
      (startCall (startCall dedupTwoIdle i) j).inflight = some 0 ∧
      settleFetch (startCall (startCall dedupTwoIdle i) j) 0 r =
        { inflight := none, fetchesIssued := 1,
          callers := [.done r, .done r] } := by
  rintro r i j (⟨hi, hj⟩ | ⟨hi, hj⟩) <;> subst hi <;> subst hj <;>
    exact ⟨rfl, rfl, rfl⟩

/-- Witness for C1: a concrete interleaving of callers 0 and 1 and a concrete
shared result. -/
theorem dedup_single_inflight_fetch_witness :
    ((0 = 0 ∧ 1 = 1) ∨ ((0 : Nat) = 1 ∧ (1 : Nat) = 0)) ∧
    settleFetch (startCall (startCall dedupTwoIdle 0) 1) 0
        (.ok { devices := [demoLamp], updatedAt := 7 }) =
      { inflight := none, fetchesIssued := 1,
        callers := [.done (.ok { devices := [demoLamp], updatedAt := 7 }),
                    .done (.ok { devices := [demoLamp], updatedAt := 7 })] } :=
  ⟨Or.inl ⟨rfl, rfl⟩,
   (dedup_single_inflight_fetch (.ok { devices := [demoLamp], updatedAt := 7 }) 0 1
     (Or.inl ⟨rfl, rfl⟩)).2.2⟩

/-- C9 counterexample: with the underlying storage I/O failing, each adapter
operation propagates the failure to its caller -- saveJson and removeKey
reject, and loadJson rejects rather than returning null. -/
theorem storage_adapter_counterexample :
    saveJson ({ data := [], ioFails := true } : KVStore DeviceCacheEntry)
        "dinodia_devices_1_home" { devices := [demoLamp], updatedAt := 7 } =
      .error "storage failure" ∧
    loadJson ({ data := [], ioFails := true } : KVStore DeviceCacheEntry)
        "dinodia_devices_1_home" = .error "storage failure" ∧
    removeKey ({ data := [], ioFails := true } : KVStore DeviceCacheEntry)
        "dinodia_devices_1_home" = .error "storage failure" :=
  ⟨rfl, rfl, rfl⟩

/-- C9 amended: the adapter operations themselves propagate storage I/O
failures; the swallowing lives in the cache-layer callers, each of which wraps
the adapter call in try/catch and completes without error for every store
state: persistCache always succeeds and installs the memory entry,
readFromStorage always succeeds, and clearDeviceCacheForUserAndMode always
succeeds, dropping the memory and in-flight entries. -/
theorem storage_errors_swallowed_by_callers :
    ∀ (mem : MemCache) (stor : KVStore DeviceCacheEntry) (key : String)
      (entry : DeviceCacheEntry) (inflight : Option Nat),
      (stor.ioFails = true →
        saveJson stor key entry = .error "storage failure" ∧
        loadJson stor key = .error "storage failure" ∧
        removeKey stor key = .error "storage failure") ∧
      (∃ res, persistCache mem stor key entry = .ok res ∧
        memLookup res.1 key = some entry) ∧
      (∃ res2, readFromStorage mem stor key = .ok res2) ∧
      (∃ res3, clearDeviceCacheForUserAndMode mem inflight stor key = .ok res3 ∧
        memLookup res3.1 key = none ∧ res3.2.1 = none) := by
  intro mem stor key entry inflight
  refine ⟨?_, ?_, ?_, ?_⟩
  · intro hio
    refine ⟨?_, ?_, ?_⟩ <;>
      simp [saveJson, setItem, loadJson, getItem, removeKey, removeItem, hio]
  · unfold persistCache
    cases h : saveJson stor key entry with
    | ok st1 => exact ⟨(memSet mem key entry, st1), rfl, memLookup_memSet mem key entry⟩
    | error e => exact ⟨(memSet mem key entry, stor), rfl, memLookup_memSet mem key entry⟩
  · unfold readFromStorage
    cases h1 : memLookup mem key with
    | some e => exact ⟨(some e, mem), rfl⟩
    | none =>
      cases h2 : loadJson stor key with
      | error e => exact ⟨(none, mem), rfl⟩
      | ok v =>
        cases v with
        | none => exact ⟨(none, mem), rfl⟩
        | some stored => exact ⟨(some stored, memSet mem key stored), rfl⟩
  · unfold clearDeviceCacheForUserAndMode
    cases h : removeKey stor key with
    | ok st1 => exact ⟨(memDrop mem key, none, st1), rfl, memLookup_memDrop mem key, rfl⟩
    | error e => exact ⟨(memDrop mem key, none, stor), rfl, memLookup_memDrop mem key, rfl⟩

/-- Witness for C9 amended, at a failing store: saveJson rejects while
persistCache still succeeds and installs the memory entry. -/
theorem storage_errors_swallowed_by_callers_witness :
    saveJson ({ data := [], ioFails := true } : KVStore DeviceCacheEntry) "k"
        { devices := [], updatedAt := 0 } = .error "storage failure" ∧
    ∃ res, persistCache [] { data := [], ioFails := true } "k"
        { devices := [], updatedAt := 0 } = .ok res ∧
      memLookup res.1 "k" = some { devices := [], updatedAt := 0 } :=
  ⟨((storage_errors_swallowed_by_callers [] { data := [], ioFails := true } "k"
      { devices := [], updatedAt := 0 } none).1 rfl).1,
   (storage_errors_swallowed_by_callers [] { data := [], ioFails := true } "k"
      { devices := [], updatedAt := 0 } none).2.1⟩

/-- C2 counterexample: a refresh that fails after the hook unmounted does not
clear the cache -- the prior successful snapshot stays in the memory cache and
the persisted store, with its old timestamp and non-empty device list. -/
theorem error_invalidation_counterexample :
    (refreshResume true none (.error "network down") 99 "k"
        { mounted := false, requestId := 0,
          memCache := [("k", { devices := [demoLamp], updatedAt := 5 })],
          storage := { data := [("k", .good { devices := [demoLamp], updatedAt := 5 })],
                       ioFails := false },
          devices := [demoLamp], lastUpdated := some 5, refreshing := false,
          errorMsg := none }).1.memCache =
      [("k", { devices := [demoLamp], updatedAt := 5 })] ∧
    (refreshResume true none (.error "network down") 99 "k"
        { mounted := false, requestId := 0,
          memCache := [("k", { devices := [demoLamp], updatedAt := 5 })],
          storage := { data := [("k", .good { devices := [demoLamp], updatedAt := 5 })],
                       ioFails := false },
          devices := [demoLamp], lastUpdated := some 5, refreshing := false,
          errorMsg := none }).1.storage.data =
      [("k", .good { devices := [demoLamp], updatedAt := 5 })] ∧
    ([demoLamp] : List UIDevice) ≠ [] := by
  refine ⟨rfl, rfl, ?_⟩
  intro h
  cases h

/-- C2 amended: a failing refresh writes the empty freshly-timestamped entry
into the memory cache (and the persisted store when the storage write
succeeds) and surfaces the error -- provided the hook is still mounted and the
call is background or still the latest non-background call; if the hook has
unmounted, the cache, the persisted store and the UI state are left unchanged. -/
theorem error_invalidation_amended :
    ∀ (silent : Bool) (cid : Option Nat) (msg key : String) (now : Int)
      (st : HookState),
      (st.mounted = true → (cid = none ∨ cid = some st.requestId) →
        memLookup (refreshResume silent cid (.error msg) now key st).1.memCache key =
          some { devices := [], updatedAt := now } ∧
        (st.storage.ioFails = false →
          kvLookup (refreshResume silent cid (.error msg) now key st).1.storage key =
            some (.good { devices := [], updatedAt := now })) ∧
        (refreshResume silent cid (.error msg) now key st).1.errorMsg = some msg ∧
        (refreshResume silent cid (.error msg) now key st).1.devices = [] ∧
        (refreshResume silent cid (.error msg) now key st).1.lastUpdated = some now) ∧
      (st.mounted = false →
        (refreshResume silent cid (.error msg) now key st).1.memCache = st.memCache ∧
        (refreshResume silent cid (.error msg) now key st).1.storage = st.storage ∧
        (refreshResume silent cid (.error msg) now key st).1.devices = st.devices ∧
        (refreshResume silent cid (.error msg) now key st).1.lastUpdated = st.lastUpdated) := by
  intro silent cid msg key now st
  constructor
  · intro hm hcid
    have hcond : st.mounted = true ∧ (cid = none ∨ cid = some st.requestId) :=
      ⟨hm, hcid⟩
    simp only [refreshResume]
    rw [if_pos hcond]
    cases hio : st.storage.ioFails with
    | true =>
      simp [persistCache, saveJson, setItem, hio, updateHookState, hm,
        refreshFinally_fields, memLookup_memSet]
    | false =>
      simp [persistCache, saveJson, setItem, hio, updateHookState, hm,
        refreshFinally_fields, memLookup_memSet, kvLookup, List.find?]
  · intro hm
    have hcond : ¬ (st.mounted = true ∧ (cid = none ∨ cid = some st.requestId)) := by
      rw [hm]
      rintro ⟨h1, h2⟩
      cases h1
    simp only [refreshResume]
    rw [if_neg hcond]
    exact ⟨(refreshFinally_fields silent cid st).1,
      (refreshFinally_fields silent cid st).2.1,
      (refreshFinally_fields silent cid st).2.2.2.1,
      (refreshFinally_fields silent cid st).2.2.2.2⟩

/-- find? commutes with mapping a function that does not change the predicate. -/
theorem find?_map_comm {α : Type} (f : α → α) (p : α → Bool)
    (hp : ∀ a, p (f a) = p a) :
    ∀ l : List α, (l.map f).find? p = (l.find? p).map f := by
  intro l
  induction l with
  | nil => rfl
  | cons a t ih =>
    rw [List.map_cons]
    cases h : p a with
    | true =>
      rw [List.find?_cons_of_pos _ (by rw [hp a]; exact h),
          List.find?_cons_of_pos _ h]
      rfl
    | false =>
      rw [List.find?_cons_of_neg _ (by rw [hp a]; simp [h]),
          List.find?_cons_of_neg _ (by simp [h])]
      exact ih

/-- Mapping an idempotent function twice equals mapping it once. -/
theorem map_idem {α : Type} (f : α → α) (hf : ∀ a, f (f a) = f a) (l : List α) :
    (l.map f).map f = l.map f := by
  induction l with
  | nil => rfl
  | cons a t ih => simp only [List.map_cons, hf a, ih]

/-- The element found by find? satisfies the predicate. -/
theorem find?_pred {α : Type} (p : α → Bool) (l : List α) (a : α)
    (h : l.find? p = some a) : p a = true := by
  induction l with
  | nil => cases h
  | cons x t ih =>
    by_cases hx : p x = true
    · rw [List.find?_cons_of_pos _ hx] at h
      injection h with h2
      rw [← h2]
      exact hx
    · rw [List.find?_cons_of_neg _ (by simp [hx])] at h
      exact ih h

/-- The row update keeps the user id. -/
theorem setConnFn_id (tid cid : Int) (u : UserRec) :
    (setConnFn tid cid u).id = u.id := by
  unfold setConnFn
  split <;> rfl

/-- The row update keeps the user role. -/
theorem setConnFn_role (tid cid : Int) (u : UserRec) :
    (setConnFn tid cid u).role = u.role := by
  unfold setConnFn
  split <;> rfl

/-- The row update is idempotent. -/
theorem setConnFn_idem (tid cid : Int) (u : UserRec) :
    setConnFn tid cid (setConnFn tid cid u) = setConnFn tid cid u := by
  unfold setConnFn
  by_cases h : (u.id == tid) = true
  · simp [h]
  · simp [h]

/-- Looking a user up after an update finds the updated row. -/
theorem findUser_setUserConn (db : DB) (tid cid uid : Int) :
    findUser (setUserConn db tid cid) uid =
      (findUser db uid).map (setConnFn tid cid) := by
  unfold findUser setUserConn
  exact find?_map_comm _ _ (fun u => by rw [setConnFn_id]) db.users

/-- The first admin after an update is the updated first admin. -/
theorem firstAdmin_setUserConn (db : DB) (tid cid : Int) :
    firstAdmin (setUserConn db tid cid) =
      (firstAdmin db).map (setConnFn tid cid) := by
  unfold firstAdmin setUserConn
  exact find?_map_comm _ _ (fun u => by rw [setConnFn_role]) db.users

/-- Writing the same connection id twice equals writing it once. -/
theorem setUserConn_idem (db : DB) (uid cid : Int) :
    setUserConn (setUserConn db uid cid) uid cid = setUserConn db uid cid := by
  unfold setUserConn
  congr 1
  exact map_idem _ (setConnFn_idem uid cid) db.users

/-- Connection lookups ignore user updates. -/
theorem connById_setUserConn (db : DB) (tid cid x : Int) :
    connById (setUserConn db tid cid) x = connById db x := rfl

/-- Connection lookups ignore the admin backfill write. -/
theorem connById_backfillAdmin (db : DB) (cid x : Int) :
    connById (backfillAdmin db cid) x = connById db x := by
  unfold backfillAdmin
  split
  · split
    · rfl
    · rfl
  · rfl

/-- The lifted row update keeps the id. -/
theorem setConnRelFn_id (tid cid : Int) (w : UserWithRelations) :
    (setConnRelFn tid cid w).id = w.id := by
  unfold setConnRelFn
  split <;> rfl

/-- The lifted row update keeps the role. -/
theorem setConnRelFn_role (tid cid : Int) (w : UserWithRelations) :
    (setConnRelFn tid cid w).role = w.role := by
  unfold setConnRelFn
  split <;> rfl

/-- Applied to the user it addresses, the lifted update sets the id. -/
theorem setConnRelFn_self (cid : Int) (w : UserWithRelations) (uid : Int)
    (h : w.id = uid) :
    setConnRelFn uid cid w = { w with haConnectionId := some cid } := by
  unfold setConnRelFn
  rw [if_pos (by rw [h]; exact beq_self_eq_true uid)]

/-- Refetching a user after an update gives the updated user with relations. -/
theorem fetchUserWithRelations_setUserConn (db : DB) (tid cid uid : Int) :
    fetchUserWithRelations (setUserConn db tid cid) uid =
      (fetchUserWithRelations db uid).map (setConnRelFn tid cid) := by
  unfold fetchUserWithRelations
  rw [findUser_setUserConn]
  cases h : findUser db uid with
  | none => rfl
  | some u =>
    have hrules : rulesFor (setUserConn db tid cid) uid = rulesFor db uid := rfl
    simp only [Option.map_some']
    rw [hrules]
    unfold setConnFn setConnRelFn
    by_cases hid : (u.id == tid) = true
    · simp [hid]
    · simp [hid]

/-- A fetched user carries the id it was fetched by. -/
theorem fetchUserWithRelations_id (db : DB) (uid : Int) (w : UserWithRelations)
    (h : fetchUserWithRelations db uid = some w) : w.id = uid := by
  unfold fetchUserWithRelations at h
  cases hf : findUser db uid with
  | none => rw [hf] at h; cases h
  | some u =>
    rw [hf] at h
    have hf2 : db.users.find? (fun x => x.id == uid) = some u := hf
    have hp : (u.id == uid) = true := find?_pred (fun x => x.id == uid) db.users u hf2
    rw [Option.map_some'] at h
    injection h with h2
    rw [← h2]
    exact beq_iff_eq.mp hp

/-- A truthy id is the stored id, and is non-zero. -/
theorem truthyId_some (x : Option Int) (c : Int) (h : truthyId x = some c) :
    x = some c ∧ ¬ c = 0 := by
  cases x with
  | none => cases h
  | some v =>
    simp only [truthyId] at h
    by_cases hv : v = 0
    · rw [if_pos hv] at h; cases h
    · rw [if_neg hv] at h
      injection h with h2
      subst h2
      exact ⟨rfl, hv⟩

/-- After the admin-pinning writes, the first admin row exists and carries the
pinned connection id. -/
theorem admin_after_pinning (db : DB) (uid cid : Int)
    (hAdm : truthyId (adminConnIdOf db) = some cid) :
    ∃ a2, firstAdmin (setUserConn (backfillAdmin db cid) uid cid) = some a2 ∧
      a2.haConnectionId = some cid := by
  obtain ⟨hAdmEq, hcid0⟩ := truthyId_some _ _ hAdm
  unfold adminConnIdOf at hAdmEq
  cases hFA : firstAdmin db with
  | none => rw [hFA] at hAdmEq; simp at hAdmEq
  | some a =>
    rw [hFA] at hAdmEq
    simp only [Option.some_bind] at hAdmEq
    unfold backfillAdmin
    rw [hFA]
    dsimp only
    cases hah : a.haConnectionId with
    | some c0 =>
      rw [hah] at hAdmEq
      simp only at hAdmEq
      injection hAdmEq with hc0
      subst hc0
      have hcond : ¬ (truthyId (some c0) = none) := by
        simp [truthyId, hcid0]
      rw [if_neg hcond]
      rw [firstAdmin_setUserConn, hFA, Option.map_some']
      refine ⟨setConnFn uid c0 a, rfl, ?_⟩
      unfold setConnFn
      split
      · rfl
      · exact hah
    | none =>
      have hcond : truthyId (none : Option Int) = none := rfl
      rw [if_pos hcond]
      rw [firstAdmin_setUserConn, firstAdmin_setUserConn, hFA]
      simp only [Option.map_some']
      refine ⟨setConnFn uid cid (setConnFn a.id cid a), rfl, ?_⟩
      have hinner : setConnFn a.id cid a = { a with haConnectionId := some cid } := by
        unfold setConnFn
        rw [if_pos (beq_self_eq_true a.id)]
      rw [hinner]
      unfold setConnFn
      split
      · rfl
      · rfl

/-- Refetching through the backfill write preserves role and id. -/
theorem fetchUserWithRelations_backfill (db : DB) (cid uid : Int)
    (user : UserWithRelations)
    (hU : fetchUserWithRelations db uid = some user) :
    ∃ w1, fetchUserWithRelations (backfillAdmin db cid) uid = some w1 ∧
      w1.role = user.role ∧ w1.id = user.id := by
  unfold backfillAdmin
  cases hFA : firstAdmin db with
  | none => exact ⟨user, hU, rfl, rfl⟩
  | some a =>
    dsimp only
    by_cases hcond : truthyId a.haConnectionId = none
    · rw [if_pos hcond]
      rw [fetchUserWithRelations_setUserConn, hU, Option.map_some']
      exact ⟨setConnRelFn a.id cid user, rfl,
        setConnRelFn_role a.id cid user, setConnRelFn_id a.id cid user⟩
    · rw [if_neg hcond]
      exact ⟨user, hU, rfl, rfl⟩

/-- When the first admin already carries the pinned id, the backfill write is
skipped. -/
theorem backfillAdmin_noop (dbx : DB) (cid : Int) (a2 : UserRec)
    (hA2 : firstAdmin dbx = some a2) (ha2c : a2.haConnectionId = some cid)
    (hcid0 : ¬ cid = 0) :
    backfillAdmin dbx cid = dbx := by
  unfold backfillAdmin
  rw [hA2]
  dsimp only
  have hcond : ¬ (truthyId a2.haConnectionId = none) := by
    rw [ha2c]
    simp [truthyId, hcid0]
  rw [if_neg hcond]

/-- The refetch after the tenant-pinning write returns the same user with the
pinned connection id. -/
theorem refetch_after_pinning (db : DB) (uid cid : Int)
    (user : UserWithRelations)
    (hU : fetchUserWithRelations db uid = some user) :
    ∃ u2, fetchUserWithRelations (setUserConn (backfillAdmin db cid) uid cid) uid =
        some u2 ∧
      u2.role = user.role ∧ u2.haConnectionId = some cid ∧ u2.id = uid := by
  have huid := fetchUserWithRelations_id db uid user hU
  obtain ⟨w1, hw1, hrole1, hid1⟩ := fetchUserWithRelations_backfill db cid uid user hU
  rw [fetchUserWithRelations_setUserConn, hw1, Option.map_some']
  have hw1id : w1.id = uid := by rw [hid1, huid]
  refine ⟨setConnRelFn uid cid w1, rfl, ?_, ?_, ?_⟩
  · rw [setConnRelFn_role, hrole1]
  · rw [setConnRelFn_self cid w1 uid hw1id]
  · rw [setConnRelFn_id, hw1id]

/-- C7 counterexample: with no admin account at all, a tenant holding an
explicit connection id resolves successfully to its own connection instead of
failing -- the previously found connection is kept, not overridden, and no
error is raised. -/
theorem tenant_admin_pinning_counterexample :
    firstAdmin tenantOnlyDb = none ∧
    getUserWithHaConnection tenantOnlyDb 7 =
      .ok { user := { id := 7, username := "t", role := Role.tenant,
                      haConnectionId := some 5, accessRules := [] },
            haConnection := tenantOnlyConn, db := tenantOnlyDb } :=
  ⟨rfl, rfl⟩

/-- C7 amended: for a tenant, whenever the first admin yields a connection id
(explicit, or the id of a connection it owns), that admin connection overrides
any previously found connection and the tenant's explicit id is repointed to
it; when no admin connection id can be found, resolution fails only if the
tenant's direct resolution also found nothing -- otherwise the tenant keeps
its own directly resolved connection. -/
theorem tenant_admin_pinning_amended (db : DB) (uid : Int)
    (user : UserWithRelations)
    (hU : fetchUserWithRelations db uid = some user)
    (hrole : user.role = Role.tenant) :
    (∀ cid ha, truthyId (adminConnIdOf db) = some cid →
      connById db cid = some ha →
      ∃ u2, getUserWithHaConnection db uid =
          .ok { user := u2, haConnection := ha,
                db := setUserConn (backfillAdmin db cid) uid cid } ∧
        u2.haConnectionId = some cid) ∧
    (truthyId (adminConnIdOf db) = none → resolveDirect db user = none →
      getUserWithHaConnection db uid =
        .error "HA connection not configured for any admin") ∧
    (∀ c, truthyId (adminConnIdOf db) = none → resolveDirect db user = some c →
      getUserWithHaConnection db uid =
        .ok { user := user, haConnection := c, db := db }) := by
  refine ⟨?_, ?_, ?_⟩
  · intro cid ha hAdm hConn
    obtain ⟨u2, hW, hrole2, hconn2, hid2⟩ := refetch_after_pinning db uid cid user hU
    have hC2 : connById (setUserConn (backfillAdmin db cid) uid cid) cid = some ha := by
      rw [connById_setUserConn, connById_backfillAdmin]
      exact hConn
    refine ⟨u2, ?_, hconn2⟩
    unfold getUserWithHaConnection
    rw [hU]
    dsimp only
    rw [if_pos hrole, hAdm]
    dsimp only
    unfold resolveTenantAdmin
    dsimp only
    rw [hC2]
    dsimp only
    rw [hW]
  · intro hAdm hDir
    unfold getUserWithHaConnection
    rw [hU]
    dsimp only
    rw [if_pos hrole, hAdm]
    dsimp only
    rw [hDir]
  · intro c hAdm hDir
    unfold getUserWithHaConnection
    rw [hU]
    dsimp only
    rw [if_pos hrole, hAdm]
    dsimp only
    rw [hDir]

/-- Witness for C7 amended: an admin with explicit connection 5 overrides the
tenant's stale explicit connection 6. -/
theorem tenant_admin_pinning_amended_witness :
    fetchUserWithRelations pinDb 7 = some pinTenant ∧
    pinTenant.role = Role.tenant ∧
    truthyId (adminConnIdOf pinDb) = some 5 ∧
    connById pinDb 5 = some pinConn ∧
    ∃ u2, getUserWithHaConnection pinDb 7 =
        .ok { user := u2, haConnection := pinConn,
              db := setUserConn (backfillAdmin pinDb 5) 7 5 } ∧
      u2.haConnectionId = some 5 :=
  ⟨rfl, rfl, rfl, rfl,
   (tenant_admin_pinning_amended pinDb 7 pinTenant rfl rfl).1 5 pinConn rfl rfl⟩

/-- C8: resolution is idempotent: a successful getUserWithHaConnection call
leaves the backend in a state from which a repeated call for the same user
returns the same user-and-connection result and the same backend state -- in
particular, once a tenant's first call has backfilled the admin's explicit
connection id and pinned the tenant's id, the second call performs no further
backfill write and re-writes only the value already stored. -/
theorem tenant_resolution_idempotent (db : DB) (uid : Int) (r : ResolveOk)
    (h : getUserWithHaConnection db uid = .ok r) :
    getUserWithHaConnection r.db uid = .ok r := by
  unfold getUserWithHaConnection at h
  cases hU : fetchUserWithRelations db uid with
  | none => rw [hU] at h; cases h
  | some user =>
    rw [hU] at h
    dsimp only at h
    by_cases hrole : user.role = Role.tenant
    · rw [if_pos hrole] at h
      cases hAdm : truthyId (adminConnIdOf db) with
      | none =>
        rw [hAdm] at h
        dsimp only at h
        cases hDir : resolveDirect db user with
        | none => rw [hDir] at h; cases h
        | some c =>
          rw [hDir] at h
          dsimp only at h
          injection h with h2
          subst h2
          dsimp only
          unfold getUserWithHaConnection
          rw [hU]
          dsimp only
          rw [if_pos hrole, hAdm]
          dsimp only
          rw [hDir]
      | some cid =>
        rw [hAdm] at h
        dsimp only at h
        unfold resolveTenantAdmin at h
        dsimp only at h
        cases hC : connById (setUserConn (backfillAdmin db cid) uid cid) cid with
        | none => rw [hC] at h; cases h
        | some ha =>
          rw [hC] at h
          dsimp only at h
          cases hW : fetchUserWithRelations (setUserConn (backfillAdmin db cid) uid cid) uid with
          | none => rw [hW] at h; cases h
          | some u2 =>
            rw [hW] at h
            dsimp only at h
            injection h with h2
            subst h2
            dsimp only
            obtain ⟨u2x, hWx, hrolex, hconnx, hidx⟩ :=
              refetch_after_pinning db uid cid user hU
            rw [hW] at hWx
            injection hWx with hu2
            obtain ⟨a2, hA2, ha2c⟩ := admin_after_pinning db uid cid hAdm
            have hcid0 : ¬ cid = 0 := (truthyId_some _ _ hAdm).2
            have hrole2 : u2.role = Role.tenant := by
              rw [← hu2] at hrolex
              rw [hrolex]
              exact hrole
            have hAdm2 : truthyId (adminConnIdOf
                (setUserConn (backfillAdmin db cid) uid cid)) = some cid := by
              unfold adminConnIdOf
              rw [hA2]
              simp only [Option.some_bind]
              rw [ha2c]
              dsimp only
              simp [truthyId, hcid0]
            have hBF2 : backfillAdmin (setUserConn (backfillAdmin db cid) uid cid) cid =
                setUserConn (backfillAdmin db cid) uid cid :=
              backfillAdmin_noop (setUserConn (backfillAdmin db cid) uid cid) cid a2
                hA2 ha2c hcid0
            have hSC2 : setUserConn (setUserConn (backfillAdmin db cid) uid cid) uid cid =
                setUserConn (backfillAdmin db cid) uid cid :=
              setUserConn_idem (backfillAdmin db cid) uid cid
            unfold getUserWithHaConnection
            rw [hW]
            dsimp only
            rw [if_pos hrole2, hAdm2]
            dsimp only
            unfold resolveTenantAdmin
            dsimp only
            rw [hBF2, hSC2, hC]
            dsimp only
            rw [hW]
    · rw [if_neg hrole] at h
      cases hDir : resolveDirect db user with
      | none => rw [hDir] at h; cases h
      | some c =>
        rw [hDir] at h
        dsimp only at h
        injection h with h2
        subst h2
        dsimp only
        unfold getUserWithHaConnection
        rw [hU]
        dsimp only
        rw [if_neg hrole]
        rw [hDir]

/-- Witness for C8: the first call on idemDb backfills both ids; the second
call, applied through the theorem, returns the identical result and state. -/
theorem tenant_resolution_idempotent_witness :
    getUserWithHaConnection idemDb 7 = .ok idemRes ∧
    getUserWithHaConnection idemRes.db 7 = .ok idemRes :=
  ⟨rfl, tenant_resolution_idempotent idemDb 7 idemRes rfl⟩

/-- Witness for C2 amended: a mounted background refresh that fails installs
the empty fresh entry in memory and storage and records the error. -/
theorem error_invalidation_amended_witness :
    (true : Bool) = true ∧ ((none : Option Nat) = none ∨ (none : Option Nat) = some 0) ∧
    memLookup (refreshResume true none (.error "down") 42 "k"
        { mounted := true, requestId := 0,
          memCache := [("k", { devices := [demoLamp], updatedAt := 5 })],
          storage := { data := [], ioFails := false },
          devices := [demoLamp], lastUpdated := some 5, refreshing := false,
          errorMsg := none }).1.memCache "k" =
      some { devices := [], updatedAt := 42 } ∧
    (refreshResume true none (.error "down") 42 "k"
        { mounted := true, requestId := 0,
          memCache := [("k", { devices := [demoLamp], updatedAt := 5 })],
          storage := { data := [], ioFails := false },
          devices := [demoLamp], lastUpdated := some 5, refreshing := false,
          errorMsg := none }).1.errorMsg = some "down" :=
  ⟨rfl, Or.inl rfl,
   ((error_invalidation_amended true none "down" "k" 42
      { mounted := true, requestId := 0,
        memCache := [("k", { devices := [demoLamp], updatedAt := 5 })],
        storage := { data := [], ioFails := false },
        devices := [demoLamp], lastUpdated := some 5, refreshing := false,
        errorMsg := none }).1 rfl (Or.inl rfl)).1,
   ((error_invalidation_amended true none "down" "k" 42
      { mounted := true, requestId := 0,
        memCache := [("k", { devices := [demoLamp], updatedAt := 5 })],
        storage := { data := [], ioFails := false },
        devices := [demoLamp], lastUpdated := some 5, refreshing := false,
        errorMsg := none }).1 rfl (Or.inl rfl)).2.2.1⟩

end Dinodia
